import Mathlib

/-!
Verification of SpreadsheetChat (src/spreadsheet_chat/src/main.py) — a shallow
embedding of the program's data model and operations in Lean 4, with theorems
settling the behavioural claims of the specification.

Modelling conventions:
* Python strings are `List Char`; Python `str.strip` / `str.lower` /
  `str.startswith` are embedded as `pyStrip` / `pyLower` / `List.isPrefixOf`.
* A pandas `DataFrame` is a `Frame`: an ordered list of (column name, declared
  type) pairs together with the rows.  The same shape stands for a table of the
  sqlite store, since `df.to_sql(..., if_exists='replace')` writes the frame's
  columns and rows verbatim (with the dtype mapped to the declared sqlite type).
* The table registry (`self.tables`, a Python dict with insertion order) and
  the sqlite store (observed through `sqlite_master` / `PRAGMA table_info`)
  are association lists with dict update semantics (`insertA` / `lookupA`).
* Calls into external libraries (pandas `read_csv`, `to_sql`,
  `read_sql_query`, the OpenAI client) are oracles: the embedding takes their
  outcome (`Option`/`Except`/`Bool`) as a parameter, since the repository code
  only dispatches on success versus raised exception.
* `logging.error` is counted: functions that log return the number of entries
  written alongside their result.
-/

namespace SpreadsheetChat

/-- Python `str.isspace` characters that matter for ASCII input: the set
stripped by Python's `str.strip()` with no argument. -/
def pyIsSpace (c : Char) : Bool :=
  c = ' ' || c = '\t' || c = '\n' || c = '\x0d' || c = '\x0b' || c = '\x0c'

/-- Python `s.strip()`: drop leading and trailing whitespace. -/
def pyStrip (s : List Char) : List Char :=
  ((s.dropWhile pyIsSpace).reverse.dropWhile pyIsSpace).reverse

/-- Python `s.lower()` (ASCII case mapping, as used on command words here). -/
def pyLower (s : List Char) : List Char :=
  s.map Char.toLower

/-- A tabular value: ordered (column name, declared type) pairs plus rows.
Stands both for a pandas `DataFrame` in the registry and for a table of the
in-memory sqlite store. -/
structure Frame where
  cols : List (List Char × List Char)
  rows : List (List (List Char))
deriving DecidableEq, Repr

/-- Association-list lookup with propositional key equality. -/
def lookupA (l : List (List Char × Frame)) (k : List Char) : Option Frame :=
  match l with
  | [] => none
  | p :: ps => if p.1 = k then some p.2 else lookupA ps k

/-- Dict-style update: replace in place if the key is present, else append.
This is Python dict assignment for the registry, and observably (through
`lookupA`) also `to_sql(if_exists='replace')` for the store. -/
def insertA (l : List (List Char × Frame)) (k : List Char) (v : Frame) :
    List (List Char × Frame) :=
  match l with
  | [] => [(k, v)]
  | p :: ps => if p.1 = k then (k, v) :: ps else p :: insertA ps k v

/-- State owned by the `SpreadsheetChat` object: the sqlite store (`self.conn`,
observed via `sqlite_master` and `PRAGMA`) and the table registry
(`self.tables`). -/
structure ChatState where
  store : List (List Char × Frame)
  tables : List (List Char × Frame)
deriving DecidableEq, Repr

/-- The tail of `load_csv` after the name has been settled (main.py lines
41-44): store the frame in the registry, then `df.to_sql(...)`.  The registry
assignment happens first; if the store write raises (`toSqlOk = false`) the
exception is caught by the surrounding handler, which logs and returns
`False`, leaving the registry updated but not the store. -/
def writeTable (st : ChatState) (name : List Char) (df : Frame) (toSqlOk : Bool) :
    Bool × ChatState :=
  let st1 : ChatState := { st with tables := insertA st.tables name df }
  if toSqlOk then (true, { st1 with store := insertA st1.store name df })
  else (false, st1)

/-- Embedding of `SpreadsheetChat.load_csv` (main.py lines 25-48).
`readResult` is the outcome of `pd.read_csv` (`none` means it raised),
`derivedName` is `os.path.splitext(os.path.basename(filename))[0]`,
`choice` is the collision-prompt answer, `newName` the rename-prompt answer,
and `toSqlOk` the outcome of `df.to_sql`.  The collision check queries
`sqlite_master`, i.e. the store. -/
def load_csv (st : ChatState) (readResult : Option Frame) (derivedName : List Char)
    (choice : List Char) (newName : List Char) (toSqlOk : Bool) : Bool × ChatState :=
  match readResult with
  | none => (false, st)
  | some df =>
    if (lookupA st.store derivedName).isSome then
      if pyLower choice = ['r'] then
        writeTable st newName df toSqlOk
      else if pyLower choice = ['s'] then
        (false, st)
      else
        writeTable st derivedName df toSqlOk
    else
      writeTable st derivedName df toSqlOk

/-- The spec's registry/store invariant: every key of the table registry has a
same-named table in the store with matching columns. -/
def registryStoreInv (st : ChatState) : Prop :=
  ∀ k v, lookupA st.tables k = some v →
    ∃ w, lookupA st.store k = some w ∧ w.cols = v.cols

/-- Rows of `PRAGMA table_info(name)` against the store in the case where the
pragma does not raise, keeping only the fields the source uses: `col[1]`
(column name) and `col[2]` (declared type).  On a name absent from the store
the pragma yields no rows.  Whether the pragma raises instead — the source
interpolates the raw name unquoted into the pragma text, so a stored name
such as `my data` or `data(1)` makes `cursor.execute` raise
`sqlite3.OperationalError` — is modelled by the `pragmaRaises` oracle of
`get_schema` below. -/
def table_info (store : List (List Char × Frame)) (name : List Char) :
    List (List Char × List Char) :=
  match lookupA store name with
  | some f => f.cols
  | none => []

/-- Python `", ".join(parts)`. -/
def joinComma : List (List Char) → List Char
  | [] => []
  | [x] => x
  | x :: y :: ys => x ++ ',' :: ' ' :: joinComma (y :: ys)

/-- Python `"\n".join(parts)`. -/
def joinNL : List (List Char) → List Char
  | [] => []
  | [x] => x
  | x :: y :: ys => x ++ '\n' :: joinNL (y :: ys)

/-- Python `s.split("\n")`. -/
def splitNL : List Char → List (List Char)
  | [] => [[]]
  | c :: cs =>
    if c = '\n' then [] :: splitNL cs
    else
      match splitNL cs with
      | [] => [[c]]
      | l :: ls => (c :: l) :: ls

/-- One line of the schema text (main.py lines 54-57):
`f"{table_name} ({', '.join(column_info)})"` where each element of
`column_info` is `f"{col[1]} ({col[2]})"` over the pragma rows. -/
def schemaLine (store : List (List Char × Frame)) (name : List Char) : List Char :=
  name ++ (" (".toList) ++
    joinComma ((table_info store name).map
      (fun q => q.1 ++ (" (".toList) ++ q.2 ++ [')'])) ++ [')']

/-- The loop body of `get_schema` over the registry keys in insertion order:
for each key run `PRAGMA table_info({key})` — `pragmaRaises` is the oracle
for whether sqlite's parser rejects the unquoted interpolated name, raising
`sqlite3.OperationalError` — and on success append the formatted line.
`get_schema` has no exception handler, so the first raise propagates. -/
def schemaLines (pragmaRaises : List Char → Bool)
    (store : List (List Char × Frame)) :
    List (List Char × Frame) → Except Unit (List (List Char))
  | [] => .ok []
  | p :: ps =>
    if pragmaRaises p.1 then .error ()
    else
      match schemaLines pragmaRaises store ps with
      | .error e => .error e
      | .ok rest => .ok (schemaLine store p.1 :: rest)

/-- Embedding of `SpreadsheetChat.get_schema` (main.py lines 50-58): one
schema line per registry key, in registry insertion order, joined with a
newline — unless one of the pragma executions raises, in which case the
exception escapes `get_schema` (it has no try/except; its only caller wraps
it in one). -/
def get_schema (pragmaRaises : List Char → Bool) (st : ChatState) :
    Except Unit (List Char) :=
  match schemaLines pragmaRaises st.store st.tables with
  | .error e => .error e
  | .ok lines => .ok (joinNL lines)

/-- Whether `pat` occurs in `s` starting at index `i`. -/
def occursAt (pat s : List Char) (i : Nat) : Bool :=
  pat.isPrefixOf (s.drop i)

/-- Index of the leftmost occurrence of `pat` in `s`, if any. -/
def firstOccur (pat s : List Char) : Option Nat :=
  (List.range (s.length + 1)).find? (occursAt pat s)

/-- Lookahead of the extraction regex: `(?=Explanation|$)` holds at position
`e` when the literal `Explanation` starts there, or `$` matches there —
without `re.MULTILINE`, at end of text or just before a trailing newline. -/
def lookaheadOk (s : List Char) (e : Nat) : Bool :=
  occursAt ("Explanation".toList) s e ||
    e = s.length || (e + 1 = s.length && s.drop e = ['\n'])

/-- End position of the lazy match starting at `i`: the least `e ≥ i + 6`
(the literal `SELECT` consumes six characters, `.*?` at least zero) where the
lookahead holds.  `e = s.length` always qualifies, so the default branch is
unreachable when `i + 6 ≤ s.length`. -/
def matchEnd (s : List Char) (i : Nat) : Nat :=
  match (List.range (s.length + 1)).find?
      (fun e => decide (i + 6 ≤ e) && lookaheadOk s e) with
  | some e => e
  | none => s.length

/-- Embedding of the extraction step (main.py line 134):
`re.search(r'SELECT.*?(?=Explanation|$)', response, re.DOTALL)`, returning
`group(0)` of the match.  `re.search` takes the leftmost starting position —
the first occurrence of the case-sensitive `SELECT` — and the lazy `.*?`
(with `DOTALL`, so newlines are consumed) extends to the least end position
where the lookahead succeeds. -/
def extract_sql (s : List Char) : Option (List Char) :=
  match firstOccur ("SELECT".toList) s with
  | none => none
  | some i => some ((s.drop i).take (matchEnd s i - i))

/-- Outcome of dispatching one input line of the chat loop. -/
inductive Action where
  | exit
  | listTables
  | load (filename : List Char)
  | query (text : List Char)
deriving DecidableEq, Repr

/-- Embedding of the dispatch of `chat_interface` (main.py lines 112-128):
the raw line is stripped, then tested in order against `exit`
(case-insensitively), `list` (case-insensitively), the case-sensitive
`load ` head, and otherwise treated as a natural-language query. -/
def dispatch (rawLine : List Char) : Action :=
  let user_input := pyStrip rawLine
  if pyLower user_input = ("exit".toList) then .exit
  else if pyLower user_input = ("list".toList) then .listTables
  else if ("load ".toList).isPrefixOf user_input then
    .load (pyStrip (user_input.drop 5))
  else .query user_input

/-- Case-insensitive equality of strings, as the specification words it. -/
def eqCI (a b : List Char) : Bool :=
  decide (pyLower a = pyLower b)

/-- Observable effects of the natural-language-query branch of
`chat_interface` (main.py lines 128-142). -/
structure QueryOutcome where
  printedResponse : Option (List Char)
  executedSql : Option (List Char)
  printedResults : Option Frame
  apology : Bool
deriving DecidableEq, Repr

/-- Embedding of the query branch of `chat_interface` (main.py lines
128-142).  `response` is what `generate_sql` returned (`none` models Python
`None`); `runSql` is the oracle for `execute_query` against the current
store.  Python's `if response:` is false both for `None` and for the empty
string, hence the `isEmpty` test.  On a match the code executes
`sql_match.group(0).strip()`; results are printed only when `execute_query`
did not return `None`, and no other message is printed on the query path. -/
def handle_query (response : Option (List Char)) (runSql : List Char → Option Frame) :
    QueryOutcome :=
  match response with
  | some r =>
    if r.isEmpty then
      { printedResponse := none, executedSql := none,
        printedResults := none, apology := true }
    else
      match extract_sql r with
      | some m =>
        let sql := pyStrip m
        { printedResponse := some r, executedSql := some sql,
          printedResults := runSql sql, apology := false }
      | none =>
        { printedResponse := some r, executedSql := none,
          printedResults := none, apology := false }
  | none =>
    { printedResponse := none, executedSql := none,
      printedResults := none, apology := true }

/-- Embedding of `SpreadsheetChat.execute_query` (main.py lines 94-100).
`readSqlQuery` is the oracle for `pd.read_sql_query(sql, self.conn)`:
`Except.error` models a raised exception (in particular any SQL syntax
error).  The result pairs the returned value with the number of
`logging.error` entries written. -/
def execute_query (readSqlQuery : List Char → Except (List Char) Frame)
    (sql : List Char) : Option Frame × Nat :=
  match readSqlQuery sql with
  | .ok f => (some f, 0)
  | .error _ => (none, 1)

/-- The f-string prompt template of `generate_sql` (main.py lines 64-78),
with the schema text and the user query interpolated. -/
def buildPrompt (schema query : List Char) : List Char :=
  ("You are an AI assistant tasked with converting user queries into SQL statements. \n            The database uses SQLite and contains the following tables:\n            ").toList ++
  schema ++
  ("\n            \n            User Query: \"").toList ++
  query ++
  ("\"\n            \n            Your task is to:\n            1. Generate a SQL query that accurately answers the user\x27s question.\n            2. Ensure the SQL is compatible with SQLite syntax.\n            3. Provide a short comment explaining what the query does.\n            \n            Output Format:\n            - SQL Query\n            - Explanation\n            ").toList

/-- Embedding of `SpreadsheetChat.generate_sql` (main.py lines 60-92).
Everything in the `try` block can raise: `schemaRes` is the outcome of
`self.get_schema()` (in the source the pragma it runs can raise on an
irregular table name), and `callApi` is the oracle for the OpenAI chat
completion call together with the `response.choices[0].message.content`
access.  Any raised exception is caught, logged once, and converted to
`None`.  The result pairs the returned value with the number of log entries
written. -/
def generate_sql (query : List Char) (schemaRes : Except (List Char) (List Char))
    (callApi : List Char → Except (List Char) (List Char)) :
    Option (List Char) × Nat :=
  match schemaRes with
  | .error _ => (none, 1)
  | .ok schema =>
    match callApi (buildPrompt schema query) with
    | .ok content => (some content, 0)
    | .error _ => (none, 1)

/-- A one-column frame used as concrete input in witnesses and
counterexamples. -/
def df0 : Frame := ⟨[("a".toList, "TEXT".toList)], []⟩

/-- A two-column frame with one row, distinct from `df0`, used as the
pre-existing table in collision scenarios. -/
def df1 : Frame :=
  ⟨[("id".toList, "INTEGER".toList), ("amount".toList, "REAL".toList)],
   [[("1".toList), ("10.5".toList)]]⟩

/-- Concrete state with one loaded table, used in witnesses. -/
def stW : ChatState :=
  ⟨[(("t".toList), df0)], [(("t".toList), df0)]⟩

/-- Concrete state holding one table whose name contains a space, as produced
by the command `load my data.csv`: the derived stem is `my data`, the quoted
collision check and `to_sql` (which quotes identifiers) both accept it, yet
the unquoted `PRAGMA table_info(my data)` raises. -/
def stBad : ChatState :=
  ⟨[(("my data".toList), df1)], [(("my data".toList), df1)]⟩

/-- Oracle for the pragma of `get_schema` matching sqlite's observed
behaviour on the names used here: `PRAGMA table_info(<name>)` with the name
interpolated unquoted raises exactly when the name contains a space. -/
def pragmaRaisesOnSpace (name : List Char) : Bool :=
  decide (' ' ∈ name)

theorem lookupA_insertA_self (l : List (List Char × Frame)) (k : List Char) (v : Frame) :
    lookupA (insertA l k v) k = some v := by
  induction l with
  | nil => simp [insertA, lookupA]
  | cons p ps ih =>
    by_cases h : p.1 = k
    · simp [insertA, lookupA, h]
    · simp [insertA, lookupA, h, ih]

theorem lookupA_insertA_ne (l : List (List Char × Frame)) (k k' : List Char) (v : Frame)
    (h : k' ≠ k) : lookupA (insertA l k v) k' = lookupA l k' := by
  have h' : ¬k = k' := fun hh => h hh.symm
  induction l with
  | nil => simp [insertA, lookupA, h']
  | cons p ps ih =>
    by_cases hp : p.1 = k
    · simp [insertA, lookupA, hp, h']
    · simp [insertA, lookupA, hp, ih]

theorem writeTable_preserves_inv (st : ChatState) (name : List Char) (df : Frame)
    (hinv : registryStoreInv st) :
    registryStoreInv (writeTable st name df true).2 := by
  intro k v hk
  simp only [writeTable, if_true] at hk ⊢
  by_cases hkn : k = name
  · subst hkn
    rw [lookupA_insertA_self] at hk
    exact ⟨df, lookupA_insertA_self _ _ _, by injection hk with h; rw [h]⟩
  · rw [lookupA_insertA_ne _ _ _ _ hkn] at hk
    obtain ⟨w, hw, hc⟩ := hinv k v hk
    exact ⟨w, by rw [lookupA_insertA_ne _ _ _ _ hkn]; exact hw, hc⟩

theorem splitNL_noNL (x : List Char) (hx : '\n' ∉ x) : splitNL x = [x] := by
  induction x with
  | nil => rfl
  | cons c cs ih =>
    have hc : ¬c = '\n' := fun h => hx (h ▸ List.mem_cons_self c cs)
    have hcs : '\n' ∉ cs := fun h => hx (List.mem_cons_of_mem c h)
    simp [splitNL, hc, ih hcs]

theorem splitNL_append (x r : List Char) (hx : '\n' ∉ x) :
    splitNL (x ++ '\n' :: r) = x :: splitNL r := by
  induction x with
  | nil => simp [splitNL]
  | cons c cs ih =>
    have hc : ¬c = '\n' := fun h => hx (h ▸ List.mem_cons_self c cs)
    have hcs : '\n' ∉ cs := fun h => hx (List.mem_cons_of_mem c h)
    simp [splitNL, hc, ih hcs]

theorem splitNL_joinNL (parts : List (List Char)) (hne : parts ≠ [])
    (h : ∀ x ∈ parts, '\n' ∉ x) : splitNL (joinNL parts) = parts := by
  induction parts with
  | nil => exact absurd rfl hne
  | cons x xs ih =>
    match xs with
    | [] => exact splitNL_noNL x (h x (List.mem_cons_self _ _))
    | y :: ys =>
      have hx : '\n' ∉ x := h x (List.mem_cons_self _ _)
      have hrest : ∀ z ∈ y :: ys, '\n' ∉ z :=
        fun z hz => h z (List.mem_cons_of_mem x hz)
      calc splitNL (joinNL (x :: y :: ys))
          = splitNL (x ++ '\n' :: joinNL (y :: ys)) := rfl
        _ = x :: splitNL (joinNL (y :: ys)) := splitNL_append _ _ hx
        _ = x :: y :: ys := by rw [ih (by simp) hrest]

theorem joinComma_noNL (parts : List (List Char)) (h : ∀ x ∈ parts, '\n' ∉ x) :
    '\n' ∉ joinComma parts := by
  induction parts with
  | nil => simp [joinComma]
  | cons x xs ih =>
    match xs with
    | [] => exact h x (List.mem_cons_self _ _)
    | y :: ys =>
      intro hmem
      simp only [joinComma, List.mem_append, List.mem_cons] at hmem
      rcases hmem with hx | hc | hc | hrest
      · exact h x (List.mem_cons_self _ _) hx
      · exact absurd hc (by decide)
      · exact absurd hc (by decide)
      · exact ih (fun z hz => h z (List.mem_cons_of_mem x hz)) hrest

theorem schemaLine_noNL (store : List (List Char × Frame)) (name : List Char)
    (hn : '\n' ∉ name)
    (hc : ∀ q ∈ table_info store name, '\n' ∉ q.1 ∧ '\n' ∉ q.2) :
    '\n' ∉ schemaLine store name := by
  intro hmem
  simp only [schemaLine, List.mem_append] at hmem
  rcases hmem with ((hx | hsp) | hjoin) | hpar
  · exact hn hx
  · exact absurd hsp (by decide)
  · refine joinComma_noNL _ ?_ hjoin
    intro x hx
    simp only [List.mem_map] at hx
    obtain ⟨q, hq, rfl⟩ := hx
    intro hmm
    simp only [List.mem_append, List.mem_singleton] at hmm
    rcases hmm with ((h1 | h2) | h3) | h4
    · exact (hc q hq).1 h1
    · exact absurd h2 (by decide)
    · exact (hc q hq).2 h3
    · exact absurd h4 (by decide)
  · exact absurd hpar (by decide)

theorem isPrefixOf_append_self (l m : List Char) : l.isPrefixOf (l ++ m) = true := by
  induction l with
  | nil => simp [List.isPrefixOf]
  | cons c cs ih => simp [List.isPrefixOf, ih]

theorem eqCI_lower_fixed (t b : List Char) (hb : pyLower b = b) :
    eqCI t b = true ↔ pyLower t = b := by
  simp [eqCI, hb]

theorem schemaLines_ok (pragmaRaises : List Char → Bool)
    (store : List (List Char × Frame)) (l : List (List Char × Frame))
    (hok : ∀ p ∈ l, pragmaRaises p.1 = false) :
    schemaLines pragmaRaises store l = .ok (l.map (fun p => schemaLine store p.1)) := by
  induction l with
  | nil => rfl
  | cons p ps ih =>
    have hp : pragmaRaises p.1 = false := hok p (List.mem_cons_self _ _)
    have hps := ih (fun q hq => hok q (List.mem_cons_of_mem p hq))
    simp [schemaLines, hp, hps]

/-- C1: on the generator reply `"SQL Query\nSELECT * FROM t;\nExplanation: ..."`
the extraction step matches exactly `"SELECT * FROM t;\n"`: the text from the
case-sensitive `SELECT` token up to but not including the literal word
`Explanation`, trailing newline included. -/
theorem extract_sql_on_example_reply :
    extract_sql ("SQL Query\nSELECT * FROM t;\nExplanation: ...".toList)
      = some ("SELECT * FROM t;\n".toList) := by decide

/-- C2 counterexample: starting from the empty state (where the registry/store
invariant holds), a `load_csv` call whose `df.to_sql` write fails returns the
failure indicator `false` but leaves the registry holding a key with no
same-named table in the store — the invariant does not survive every call. -/
theorem load_csv_inv_not_preserved_on_store_failure :
    registryStoreInv ⟨[], []⟩ ∧
    (load_csv ⟨[], []⟩ (some df0) ("t".toList) [] [] false).1 = false ∧
    ¬ registryStoreInv (load_csv ⟨[], []⟩ (some df0) ("t".toList) [] [] false).2 := by
  refine ⟨?_, by decide, ?_⟩
  · intro k v hk
    exact Option.noConfusion hk
  · intro h
    obtain ⟨w, hw, -⟩ := h ("t".toList) df0 (by decide)
    have hstore : (load_csv ⟨[], []⟩ (some df0) ("t".toList) [] [] false).2.store = [] := by
      decide
    rw [hstore] at hw
    exact Option.noConfusion hw

/-- C2 (amended): the registry/store invariant is preserved by every
`load_csv` call in which the store write `df.to_sql` does not fail; when the
store write fails after the registry assignment, the call returns the failure
indicator but the registry can be left with a key that has no same-named
store table. -/
theorem load_csv_preserves_inv (st : ChatState) (readResult : Option Frame)
    (derivedName choice newName : List Char)
    (hinv : registryStoreInv st) :
    registryStoreInv (load_csv st readResult derivedName choice newName true).2 := by
  cases readResult with
  | none => exact hinv
  | some df =>
    by_cases h1 : (lookupA st.store derivedName).isSome = true
    · by_cases h2 : pyLower choice = ['r']
      · have hred : (load_csv st (some df) derivedName choice newName true)
            = writeTable st newName df true := by
          simp [load_csv, h1, h2]
        rw [hred]
        exact writeTable_preserves_inv st newName df hinv
      · by_cases h3 : pyLower choice = ['s']
        · have hred : (load_csv st (some df) derivedName choice newName true)
              = (false, st) := by
            simp [load_csv, h1, h2, h3]
          rw [hred]
          exact hinv
        · have hred : (load_csv st (some df) derivedName choice newName true)
              = writeTable st derivedName df true := by
            simp [load_csv, h1, h2, h3]
          rw [hred]
          exact writeTable_preserves_inv st derivedName df hinv
    · have hred : (load_csv st (some df) derivedName choice newName true)
          = writeTable st derivedName df true := by
        simp [load_csv, h1]
      rw [hred]
      exact writeTable_preserves_inv st derivedName df hinv

/-- C2 witness: the amended preservation theorem applied at the empty state
and a successful store write. -/
theorem load_csv_preserves_inv_witness :
    registryStoreInv (load_csv ⟨[], []⟩ (some df0) ("t".toList) [] [] true).2 :=
  load_csv_preserves_inv ⟨[], []⟩ (some df0) ("t".toList) [] []
    (fun _ _ hk => Option.noConfusion hk)

/-- C4: `execute_query` either returns a result frame (with no log entry) or
returns `none` after writing exactly one log entry, for every outcome of the
underlying `pd.read_sql_query` call — no exception escapes its boundary; in
particular when the call raises (as it does on a syntactically invalid SQL
string) the result is `none` with one log entry. -/
theorem execute_query_never_raises (readSqlQuery : List Char → Except (List Char) Frame)
    (sql : List Char) :
    ((∃ f, readSqlQuery sql = .ok f ∧ execute_query readSqlQuery sql = (some f, 0)) ∨
      execute_query readSqlQuery sql = (none, 1)) ∧
    (∀ e, readSqlQuery sql = .error e → execute_query readSqlQuery sql = (none, 1)) := by
  constructor
  · cases h : readSqlQuery sql with
    | ok f => exact Or.inl ⟨f, rfl, by simp [execute_query, h]⟩
    | error e => exact Or.inr (by simp [execute_query, h])
  · intro e he
    simp [execute_query, he]

/-- C4 witness: on an oracle that raises a syntax error, `execute_query`
returns the failure signal with exactly one log entry. -/
theorem execute_query_never_raises_witness :
    execute_query (fun _ => Except.error ("syntax error".toList))
      ("SELEC * FROM t".toList) = (none, 1) :=
  (execute_query_never_raises (fun _ => Except.error ("syntax error".toList))
    ("SELEC * FROM t".toList)).2 ("syntax error".toList) rfl

/-- C5: dispatch of a chat-loop input line, on the trimmed line and in order:
a line equal to `exit` case-insensitively ends the loop; a line equal to
`list` case-insensitively lists the registry keys; a line whose trimmed form
begins with the case-sensitive `load ` invokes the loader on the remainder,
trimmed; every other line is handled as a natural-language query. -/
theorem dispatch_follows_rules (line : List Char) :
    (eqCI (pyStrip line) ("exit".toList) = true → dispatch line = .exit) ∧
    (eqCI (pyStrip line) ("exit".toList) = false →
      eqCI (pyStrip line) ("list".toList) = true → dispatch line = .listTables) ∧
    (eqCI (pyStrip line) ("exit".toList) = false →
      eqCI (pyStrip line) ("list".toList) = false →
      ("load ".toList).isPrefixOf (pyStrip line) = true →
      dispatch line = .load (pyStrip ((pyStrip line).drop 5))) ∧
    (eqCI (pyStrip line) ("exit".toList) = false →
      eqCI (pyStrip line) ("list".toList) = false →
      ("load ".toList).isPrefixOf (pyStrip line) = false →
      dispatch line = .query (pyStrip line)) := by
  have he := eqCI_lower_fixed (pyStrip line) ("exit".toList) (by decide)
  have hl := eqCI_lower_fixed (pyStrip line) ("list".toList) (by decide)
  refine ⟨?_, ?_, ?_, ?_⟩
  · intro h1
    simp [dispatch, he.mp h1]
  · intro h1 h2
    have h1' : ¬ pyLower (pyStrip line) = ['e', 'x', 'i', 't'] := by
      intro hh
      rw [he.mpr hh] at h1
      exact Bool.noConfusion h1
    simp [dispatch, h1', hl.mp h2]
  · intro h1 h2 h3
    have h1' : ¬ pyLower (pyStrip line) = ['e', 'x', 'i', 't'] := by
      intro hh
      rw [he.mpr hh] at h1
      exact Bool.noConfusion h1
    have h2' : ¬ pyLower (pyStrip line) = ['l', 'i', 's', 't'] := by
      intro hh
      rw [hl.mpr hh] at h2
      exact Bool.noConfusion h2
    have h3' : ['l', 'o', 'a', 'd', ' '] <+: pyStrip line :=
      List.isPrefixOf_iff_prefix.mp h3
    simp [dispatch, h1', h2', h3']
  · intro h1 h2 h3
    have h1' : ¬ pyLower (pyStrip line) = ['e', 'x', 'i', 't'] := by
      intro hh
      rw [he.mpr hh] at h1
      exact Bool.noConfusion h1
    have h2' : ¬ pyLower (pyStrip line) = ['l', 'i', 's', 't'] := by
      intro hh
      rw [hl.mpr hh] at h2
      exact Bool.noConfusion h2
    have h3' : ¬ (['l', 'o', 'a', 'd', ' '] <+: pyStrip line) := by
      intro hp
      have hb : ("load ".toList).isPrefixOf (pyStrip line) = true :=
        List.isPrefixOf_iff_prefix.mpr hp
      rw [hb] at h3
      exact Bool.noConfusion h3
    simp [dispatch, h1', h2', h3']

/-- C5 witness: the dispatch theorem applied to the line `"  EXIT "`, which
case-insensitively equals `exit` after trimming. -/
theorem dispatch_follows_rules_witness :
    dispatch ("  EXIT ".toList) = Action.exit :=
  (dispatch_follows_rules ("  EXIT ".toList)).1 (by decide)

/-- C6 counterexample: the registry of `stBad` has exactly one entry, whose
table name `my data` is reachable by loading `my data.csv` (the quoted
collision check and `to_sql` accept it), yet under the pragma behaviour
sqlite exhibits on that name — the unquoted `PRAGMA table_info(my data)`
raises `sqlite3.OperationalError` — `get_schema` propagates the exception
and returns no text at all, so it does not return one line per registry
entry. -/
theorem get_schema_raises_on_space_name :
    stBad.tables.length = 1 ∧
    get_schema pragmaRaisesOnSpace stBad = .error () := by
  refine ⟨by decide, ?_⟩
  have hsp : pragmaRaisesOnSpace ['m', 'y', ' ', 'd', 'a', 't', 'a'] = true := by decide
  simp [get_schema, stBad, schemaLines, hsp]

/-- C6 (amended): provided every registry key is a name the unquoted
`PRAGMA table_info` interpolation accepts (the pragma does not raise), and
names and column entries are newline-free as identifiers are: `get_schema`
of an empty registry is the empty string, and for a nonempty registry the
schema text splits on newlines into exactly one line per registry entry, in
registry insertion order, each line being the registry key followed by the
parenthesized comma-separated `column (declared type)` list — in particular
each line starts with its registry key.  For a registry key the pragma
cannot parse, `get_schema` instead raises. -/
theorem get_schema_one_line_per_entry (pragmaRaises : List Char → Bool) (st : ChatState)
    (hok : ∀ p ∈ st.tables, pragmaRaises p.1 = false)
    (hn : ∀ p ∈ st.tables, '\n' ∉ p.1)
    (hc : ∀ p ∈ st.tables, ∀ q ∈ table_info st.store p.1, '\n' ∉ q.1 ∧ '\n' ∉ q.2) :
    (st.tables = [] → get_schema pragmaRaises st = .ok []) ∧
    (st.tables ≠ [] →
      ∃ text, get_schema pragmaRaises st = .ok text ∧
        splitNL text = st.tables.map (fun p => schemaLine st.store p.1) ∧
        ∀ p ∈ st.tables, (p.1).isPrefixOf (schemaLine st.store p.1) = true) := by
  have hlines := schemaLines_ok pragmaRaises st.store st.tables hok
  refine ⟨?_, fun hne => ?_⟩
  · intro h
    simp [get_schema, h, schemaLines, joinNL]
  · refine ⟨joinNL (st.tables.map (fun p => schemaLine st.store p.1)), ?_, ?_, ?_⟩
    · simp [get_schema, hlines]
    · apply splitNL_joinNL
      · simp [hne]
      · intro x hx
        simp only [List.mem_map] at hx
        obtain ⟨p, hp, rfl⟩ := hx
        exact schemaLine_noNL _ _ (hn p hp) (hc p hp)
    · intro p hp
      have hline : schemaLine st.store p.1
          = p.1 ++ ((" (".toList) ++
              joinComma ((table_info st.store p.1).map
                (fun q => q.1 ++ (" (".toList) ++ q.2 ++ [')'])) ++ [')']) := by
        simp [schemaLine, List.append_assoc]
      rw [hline]
      exact isPrefixOf_append_self _ _

/-- C6 witness: the amended schema-shape theorem applied at a one-table
state whose name the pragma accepts. -/
theorem get_schema_one_line_per_entry_witness :
    ∃ text, get_schema pragmaRaisesOnSpace stW = Except.ok text ∧
      splitNL text = stW.tables.map (fun p => schemaLine stW.store p.1) ∧
      ∀ p ∈ stW.tables, (p.1).isPrefixOf (schemaLine stW.store p.1) = true :=
  (get_schema_one_line_per_entry pragmaRaisesOnSpace stW (by decide) (by decide)
    (by decide)).2 (by decide)

/-- C7 counterexample: the empty generator reply contains no occurrence of
the `SELECT` token, yet the query path does not end without printing a
message — Python's `if response:` is falsy on it, so the fixed apology
message is printed to the user. -/
theorem no_select_empty_reply_prints_apology :
    (∀ i ≤ ([] : List Char).length, occursAt ("SELECT".toList) [] i = false) ∧
    (handle_query (some []) (fun _ => none)).apology = true := by
  exact ⟨by decide, rfl⟩

/-- C7 (amended): for every nonempty generator reply with no occurrence of
the case-sensitive token `SELECT`, extraction yields no match, the Query
Executor is not invoked, and the query path ends having printed only the
echoed reply — no results, no apology, no error message.  (The empty reply
also lacks a `SELECT` token but takes the apology branch instead of reaching
extraction.)  The bound `i ≤ r.length` is vacuous: no occurrence can start
past the end of the reply. -/
theorem no_select_token_silent_failure (r : List Char) (runSql : List Char → Option Frame)
    (hne : r ≠ [])
    (h : ∀ i ≤ r.length, occursAt ("SELECT".toList) r i = false) :
    extract_sql r = none ∧
    handle_query (some r) runSql =
      { printedResponse := some r, executedSql := none,
        printedResults := none, apology := false } := by
  have hfo : firstOccur ("SELECT".toList) r = none := by
    apply List.find?_eq_none.mpr
    intro i hi
    have hle : i ≤ r.length := Nat.lt_succ_iff.mp (List.mem_range.mp hi)
    intro hc
    rw [h i hle] at hc
    exact Bool.noConfusion hc
  have hex : extract_sql r = none := by
    unfold extract_sql
    rw [hfo]
  refine ⟨hex, ?_⟩
  cases r with
  | nil => exact absurd rfl hne
  | cons c cs => simp [handle_query, hex]

/-- C7 witness: the amended theorem applied to a nonempty reply with no
`SELECT` token. -/
theorem no_select_token_silent_failure_witness :
    extract_sql ("I cannot help with that.".toList) = none ∧
    handle_query (some ("I cannot help with that.".toList)) (fun _ => none) =
      { printedResponse := some ("I cannot help with that.".toList),
        executedSql := none, printedResults := none, apology := false } :=
  no_select_token_silent_failure ("I cannot help with that.".toList)
    (fun _ => none) (by decide) (by decide)

/-- C8: `generate_sql` either returns the raw text reply of the external
service (with no log entry) or returns `none` after writing one log entry,
for every outcome of the schema construction and of the service call — no
exception, including one raised during schema construction, propagates to
the caller. -/
theorem generate_sql_never_raises (query : List Char)
    (schemaRes : Except (List Char) (List Char))
    (callApi : List Char → Except (List Char) (List Char)) :
    ((∃ s content, schemaRes = .ok s ∧ callApi (buildPrompt s query) = .ok content ∧
        generate_sql query schemaRes callApi = (some content, 0)) ∨
      generate_sql query schemaRes callApi = (none, 1)) ∧
    (∀ e, schemaRes = .error e → generate_sql query schemaRes callApi = (none, 1)) := by
  constructor
  · cases hs : schemaRes with
    | error e => exact Or.inr (by simp [generate_sql, hs])
    | ok s =>
      cases hcall : callApi (buildPrompt s query) with
      | ok content => exact Or.inl ⟨s, content, rfl, hcall, by simp [generate_sql, hs, hcall]⟩
      | error e => exact Or.inr (by simp [generate_sql, hs, hcall])
  · intro e he
    simp [generate_sql, he]

/-- C8 witness: when schema construction raises, `generate_sql` returns the
failure signal with one log entry. -/
theorem generate_sql_never_raises_witness :
    generate_sql ("how many rows".toList) (Except.error ("pragma failed".toList))
      (fun _ => Except.error ("unused".toList)) = (none, 1) :=
  (generate_sql_never_raises ("how many rows".toList)
    (Except.error ("pragma failed".toList))
    (fun _ => Except.error ("unused".toList))).2 ("pragma failed".toList) rfl

/-- C10: a generator reply equal to the empty string is handled exactly like
a failed generation (`None`): Python's `if response:` is false on it, so the
chat loop prints the fixed apology, and neither SQL extraction nor query
execution is attempted — no SQL is executed and no results are printed. -/
theorem handle_query_empty_reply_is_apology (runSql : List Char → Option Frame) :
    handle_query (some []) runSql = handle_query none runSql ∧
    (handle_query (some []) runSql).apology = true ∧
    (handle_query (some []) runSql).executedSql = none ∧
    (handle_query (some []) runSql).printedResults = none ∧
    (handle_query (some []) runSql).printedResponse = none :=
  ⟨rfl, rfl, rfl, rfl, rfl⟩

end SpreadsheetChat
